import Mathlib

/-!
Verification of the hpath histopathology discrete-event simulation model
(`src/hpath/...`) against its natural-language specification.  Each section
shallowly embeds the Python functions the corresponding claims are about:
pure branching logic becomes Lean functions, mutable local variables become
`Id.run do` blocks with `let mut`, random draws (`env.u01()`, distribution
samples) become explicit rational/natural parameters, and Python floats are
modelled as rationals.
-/

/-- Specimen priority, from `hpath/specimens.py` (`class Priority(enum.IntEnum)`).
Lower value = higher priority. -/
inductive Priority where
  | ROUTINE
  | CANCER
  | PRIORITY
  | URGENT
deriving DecidableEq, Repr

/-- Integer value of each priority, as in the source `IntEnum`
(`ROUTINE = 0, CANCER = -1, PRIORITY = -2, URGENT = -3`). -/
def Priority.toInt : Priority → ℤ
  | .ROUTINE => 0
  | .CANCER => -1
  | .PRIORITY => -2
  | .URGENT => -3

/-- Block types that appear in `data['block_type']` of a `Block`
(`small surgical`, `large surgical`, `mega`). -/
inductive BlockType where
  | smallSurgical
  | largeSurgical
  | mega
deriving DecidableEq, Repr

/-- The four processing batching queues of `hpath/process/p30_processing.py`:
`batcher.processing_urgents`, `batcher.processing_smalls`,
`batcher.processing_larges`, `batcher.processing_megas`. -/
inductive ProcQueueId where
  | urgents
  | smalls
  | larges
  | megas
deriving DecidableEq, Repr

/-- Embedding of `processing_assign_queue` (`hpath/process/p30_processing.py`,
lines 192-206).  The Python body is three disjoint `if` statements, the last
carrying an `else`; `out_queue` is a local that each branch re-assigns.  A
`none` result would correspond to Python's `out_queue` being unbound, which
cannot happen since the last `if`/`else` always assigns. -/
def processing_assign_queue (prio : Priority) (block_type : BlockType) :
    Option ProcQueueId := Id.run do
  let mut out_queue : Option ProcQueueId := none
  if prio = Priority.URGENT then
    out_queue := some ProcQueueId.urgents
  if block_type = BlockType.smallSurgical then
    out_queue := some ProcQueueId.smalls
  if block_type = BlockType.largeSurgical then
    out_queue := some ProcQueueId.larges
  else
    out_queue := some ProcQueueId.megas
  return out_queue

/-- Embedding of the branch outcome of `cutup_large`
(`hpath/process/p20_cutup.py`, lines 154-189).  Parameters: `u` is the
`env.u01()` draw, `prob_mega_blocks` the global probability,
`nMega` the `num_blocks_mega()` draw and `nLarge` the
`num_blocks_large_surgical()` draw.  Returns the `block_type` given to every
created `Block` together with `n_blocks`.  The source condition is
`(self.prio == Priority.URGENT) or (env.u01() < env.globals.prob_mega_blocks)`
selecting the mega branch. -/
def cutup_large_outcome (prio : Priority) (u prob_mega_blocks : ℚ)
    (nMega nLarge : ℕ) : BlockType × ℕ :=
  if prio = Priority.URGENT ∨ u < prob_mega_blocks then
    (BlockType.mega, nMega)
  else
    (BlockType.largeSurgical, nLarge)

/-- Claim C1: `processing_assign_queue` routes a block to exactly one of the
four processing batching queues by priority and type: URGENT blocks to the
urgents queue, otherwise `small surgical` to smalls, `large surgical` to
larges, `mega` to megas.  The code violates this: the three `if` statements
are disjoint (not `elif`), so the earlier assignments are overwritten and an
URGENT `small surgical` block lands in the megas queue. -/
theorem C1_processing_assign_queue_misroutes :
    processing_assign_queue Priority.URGENT BlockType.smallSurgical
      = some ProcQueueId.megas ∧
    some ProcQueueId.megas ≠ some ProcQueueId.urgents ∧
    ∀ p t, processing_assign_queue p t ≠ some ProcQueueId.urgents ∧
      processing_assign_queue p t ≠ some ProcQueueId.smalls := by
  refine ⟨rfl, by decide, ?_⟩
  intro p t
  cases p <;> cases t <;> constructor <;> decide

/-- Claim C2: per the spec (and the source's own comment, lines 161-162 of
`p20_cutup.py`: urgent cut-ups never produce megas), an URGENT specimen in
`cutup_large` should always emit `large surgical` blocks.  The code's
condition `(prio == URGENT) or (u01() < prob_mega_blocks)` instead sends
every URGENT specimen down the mega branch: even with `prob_mega_blocks = 0`
an URGENT specimen emits `mega`-type blocks with count drawn from
`num_blocks_mega`. -/
theorem C2_cutup_large_urgent_emits_megas :
    cutup_large_outcome Priority.URGENT 1 0 5 7 = (BlockType.mega, 5) ∧
    BlockType.mega ≠ BlockType.largeSurgical ∧
    ∀ u p n m, cutup_large_outcome Priority.URGENT u p n m = (BlockType.mega, n) := by
  refine ⟨?_, by decide, ?_⟩
  · simp [cutup_large_outcome]
  · intro u p n m
    simp [cutup_large_outcome]

/-- Global probabilities used by `Specimen.setup` (`hpath/specimens.py`,
lines 39-61): `prob_urgent_cancer`, `prob_priority_cancer`,
`prob_urgent_non_cancer`, `prob_priority_non_cancer`
(see `hpath/config.py`, `class Globals`). -/
structure SpecimenGlobals where
  prob_urgent_cancer : ℚ
  prob_priority_cancer : ℚ
  prob_urgent_non_cancer : ℚ
  prob_priority_non_cancer : ℚ
deriving DecidableEq, Repr

/-- Embedding of the priority CDF of `Specimen.setup` (`hpath/specimens.py`,
lines 48-60).  `dist` is selected by the `cancer` entry of the specimen's
`data` (the `cancer=` kwarg its generator was created with); the `sim.CumPdf`
over cumulative probabilities `(URGENT, pu), (PRIORITY, pu+pp), (last, 1)`
returns, for a uniform draw `u`, the first value whose cumulative probability
is at least `u`; the final value is `CANCER` when `dist == "cancer"` and
`ROUTINE` otherwise. -/
def specimen_setup_priority (cancer : Bool) (g : SpecimenGlobals) (u : ℚ) :
    Priority :=
  if cancer then
    if u ≤ g.prob_urgent_cancer then Priority.URGENT
    else if u ≤ g.prob_urgent_cancer + g.prob_priority_cancer then Priority.PRIORITY
    else Priority.CANCER
  else
    if u ≤ g.prob_urgent_non_cancer then Priority.URGENT
    else if u ≤ g.prob_urgent_non_cancer + g.prob_priority_non_cancer then Priority.PRIORITY
    else Priority.ROUTINE

/-- One `ArrivalGenerator` construction in `Model.setup` (`hpath/model.py`,
lines 179-194): `forCancerStream` records which arrival schedule
(cancer or non-cancer) the generator is built from, and `cancer` is the
`cancer=` kwarg forwarded to every `Specimen` it creates. -/
structure ArrivalGeneratorCfg where
  forCancerStream : Bool
  cancer : Bool
deriving DecidableEq, Repr

/-- The two `ArrivalGenerator` calls of `Model.setup` (`hpath/model.py`,
lines 179-194), in source order: the cancer generator is created with
`cancer=True`, and the non-cancer generator is likewise created with
`cancer=True`. -/
def model_setup_arrival_generators : List ArrivalGeneratorCfg :=
  [⟨true, true⟩, ⟨false, true⟩]

/-- Claim C3: specimens of the non-cancer generator should sample their
priority from the non-cancer CDF (ending in ROUTINE).  The code passes
`cancer=True` to both generators in `Model.setup`, so every specimen of the
"non-cancer" generator samples from the cancer CDF: with all four
probabilities 0 and draw 1/2 it gets priority CANCER where the non-cancer
CDF yields ROUTINE. -/
theorem C3_noncancer_generator_uses_cancer_cdf :
    model_setup_arrival_generators.get? 1 = some ⟨false, true⟩ ∧
    specimen_setup_priority true ⟨0, 0, 0, 0⟩ (1/2) = Priority.CANCER ∧
    specimen_setup_priority false ⟨0, 0, 0, 0⟩ (1/2) = Priority.ROUTINE ∧
    Priority.CANCER ≠ Priority.ROUTINE := by
  refine ⟨rfl, ?_, ?_, by decide⟩ <;> norm_num [specimen_setup_priority]

/-- A parent entity as seen by `CollationProcess.process`
(`hpath/process/__core.py`, lines 299-314): its identity
(`item.parent.name()`, modelled as a numeric id), its `prio` field, and
`parent.data[counter_name]`. -/
structure CParent where
  pid : ℕ
  prio : Priority
  counterVal : ℕ
deriving DecidableEq, Repr

/-- A child entity arriving at a `CollationProcess`: carries its parent. -/
structure CChild where
  parent : CParent
deriving DecidableEq, Repr

/-- The `priority` argument handed to salabim's `enter_sorted`:
either a `Priority` value (as at every other call site of the code base)
or a whole parent component (as `CollationProcess.process` passes). -/
inductive SortKey where
  | prioKey (p : Priority)
  | componentKey (c : CParent)
deriving DecidableEq, Repr

/-- One iteration of the `CollationProcess.process` loop
(`hpath/process/__core.py`, lines 299-314): append the incoming child to its
parent's bucket in `self.dict`; when the bucket length equals
`item.parent.data[self.counter_name]`, call
`item.parent.enter_sorted(out_queue, item.parent)` — the priority argument is
`item.parent` itself — and delete the bucket.  Returns the new dict and the
list of `(sort key, parent)` insertions into the out-process in-queue. -/
def collation_step (dict : List (ℕ × List CChild)) (item : CChild) :
    List (ℕ × List CChild) × List (SortKey × CParent) :=
  let key := item.parent.pid
  let bucket := (dict.lookup key).getD [] ++ [item]
  if bucket.length = item.parent.counterVal then
    (dict.filter fun kv => kv.1 != key,
     [(SortKey.componentKey item.parent, item.parent)])
  else
    ((key, bucket) :: dict.filter fun kv => kv.1 != key, [])

/-- Claim C4: the parent should be inserted priority-sorted by its `prio`
field.  The code instead passes the parent component itself as the
`enter_sorted` priority argument (`item.parent`, not `item.parent.prio`):
every emission carries `SortKey.componentKey parent`, never
`SortKey.prioKey parent.prio`.  The timing (bucket length reaching
`counterVal`) and the bucket deletion do match the claim. -/
theorem C4_collation_priority_key_is_component :
    collation_step [] ⟨⟨1, Priority.URGENT, 1⟩⟩
      = ([], [(SortKey.componentKey ⟨1, Priority.URGENT, 1⟩,
               ⟨1, Priority.URGENT, 1⟩)]) ∧
    (∀ c : CParent, SortKey.componentKey c ≠ SortKey.prioKey c.prio) ∧
    ∀ dict item, (collation_step dict item).2 = [] ∨
      (collation_step dict item).2
        = [(SortKey.componentKey item.parent, item.parent)] := by
  refine ⟨rfl, fun c => by simp, fun dict item => ?_⟩
  simp only [collation_step]
  split
  · exact Or.inr rfl
  · exact Or.inl rfl

/-- The stage-to-stage `DeliveryProcess` names of the histopath pipeline;
each has a companion `BatchingProcess` named `batcher.<name>` (except that
`scanning_to_qc`'s batcher is fed by `post_scanning` for every specimen). -/
inductive StageProcess where
  | reception_to_cutup
  | cutup_bms_to_processing
  | cutup_pool_to_processing
  | cutup_large_to_processing
  | processing_to_microtomy
  | microtomy_to_staining
  | staining_to_labelling
  | labelling_to_scanning
  | scanning_to_qc
deriving DecidableEq, Repr

/-- Destination store of a specimen-level routing decision:
the in-queue of a `DeliveryProcess` `p`, or the in-queue of the
`BatchingProcess` `batcher.<p>`. -/
inductive StoreRef where
  | deliveryQueue (p : StageProcess)
  | batcherQueue (p : StageProcess)
deriving DecidableEq, Repr

/-- Whether the destination store is the input store of a `BatchingProcess`. -/
def StoreRef.isBatcherStore : StoreRef → Bool
  | .deliveryQueue _ => false
  | .batcherQueue _ => true

/-- Routing at the end of `booking_in` (`hpath/process/p10_reception.py`,
lines 96-100). -/
def booking_in_route (prio : Priority) : StoreRef :=
  if prio = Priority.URGENT then .deliveryQueue .reception_to_cutup
  else .batcherQueue .reception_to_cutup

/-- Routing at the end of `cutup_bms` (`hpath/process/p20_cutup.py`,
lines 123-126). -/
def cutup_bms_route (prio : Priority) : StoreRef :=
  if prio = Priority.URGENT then .deliveryQueue .cutup_bms_to_processing
  else .batcherQueue .cutup_bms_to_processing

/-- Routing at the end of `cutup_pool` (`hpath/process/p20_cutup.py`,
lines 148-151). -/
def cutup_pool_route (prio : Priority) : StoreRef :=
  if prio = Priority.URGENT then .deliveryQueue .cutup_pool_to_processing
  else .batcherQueue .cutup_pool_to_processing

/-- Routing at the end of `cutup_large` (`hpath/process/p20_cutup.py`,
lines 186-189). -/
def cutup_large_route (prio : Priority) : StoreRef :=
  if prio = Priority.URGENT then .deliveryQueue .cutup_large_to_processing
  else .batcherQueue .cutup_large_to_processing

/-- Routing at the end of `post_processing` (`hpath/process/p30_processing.py`,
lines 323-326). -/
def post_processing_route (prio : Priority) : StoreRef :=
  if prio = Priority.URGENT then .deliveryQueue .processing_to_microtomy
  else .batcherQueue .processing_to_microtomy

/-- Routing at the end of `microtomy` (`hpath/process/p40_microtomy.py`,
lines 83-86). -/
def microtomy_route (prio : Priority) : StoreRef :=
  if prio = Priority.URGENT then .deliveryQueue .microtomy_to_staining
  else .batcherQueue .microtomy_to_staining

/-- Routing at the end of `post_staining` (`hpath/process/p50_staining.py`,
lines 155-158). -/
def post_staining_route (prio : Priority) : StoreRef :=
  if prio = Priority.URGENT then .deliveryQueue .staining_to_labelling
  else .batcherQueue .staining_to_labelling

/-- Routing at the end of `labelling` (`hpath/process/p60_labelling.py`,
lines 49-52). -/
def labelling_route (prio : Priority) : StoreRef :=
  if prio = Priority.URGENT then .deliveryQueue .labelling_to_scanning
  else .batcherQueue .labelling_to_scanning

/-- Routing at the end of `post_scanning` (`hpath/process/p70_scanning.py`,
line 135): every specimen, with no priority test, enters
`batcher.scanning_to_qc`'s in-queue (priority-sorted by its own `prio`). -/
def post_scanning_route (_prio : Priority) : StoreRef :=
  .batcherQueue .scanning_to_qc

/-- Claim C5 counterexample: an URGENT specimen leaving scanning is placed in
the input store of the BatchingProcess `batcher.scanning_to_qc`, so URGENT
specimens do sit in a BatchingProcess input store. -/
theorem C5_urgent_enters_scanning_batcher :
    (post_scanning_route Priority.URGENT).isBatcherStore = true := by
  decide

/-- Claim C5 (amended): at booking-in, the three cut-up exits,
post-processing, microtomy, post-staining and labelling, a specimen enters
the stage's batcher input store exactly when it is not URGENT (URGENT
specimens go directly to the next DeliveryProcess queue); after scanning,
however, every specimen — URGENT included — enters the
`batcher.scanning_to_qc` input store. -/
theorem C5_urgent_routing_amended (p : Priority) :
    ((booking_in_route p).isBatcherStore = true ↔ p ≠ Priority.URGENT) ∧
    ((cutup_bms_route p).isBatcherStore = true ↔ p ≠ Priority.URGENT) ∧
    ((cutup_pool_route p).isBatcherStore = true ↔ p ≠ Priority.URGENT) ∧
    ((cutup_large_route p).isBatcherStore = true ↔ p ≠ Priority.URGENT) ∧
    ((post_processing_route p).isBatcherStore = true ↔ p ≠ Priority.URGENT) ∧
    ((microtomy_route p).isBatcherStore = true ↔ p ≠ Priority.URGENT) ∧
    ((post_staining_route p).isBatcherStore = true ↔ p ≠ Priority.URGENT) ∧
    ((labelling_route p).isBatcherStore = true ↔ p ≠ Priority.URGENT) ∧
    (post_scanning_route p).isBatcherStore = true := by
  cases p <;> decide

/-- Python's `int()` applied to a rational: truncation toward zero. -/
def pyTrunc (x : ℚ) : ℤ := if 0 ≤ x then ⌊x⌋ else ⌈x⌉

lemma pyTrunc_le_of_le (x : ℚ) (n : ℤ) (hn : 0 ≤ n) (h : x ≤ (n : ℚ) + 1/2) :
    pyTrunc x ≤ n := by
  by_cases hx : 0 ≤ x
  · have hfl : ⌊x⌋ < n + 1 := by
      rw [Int.floor_lt]
      push_cast
      linarith
    simp only [pyTrunc, if_pos hx]
    omega
  · have hcl : ⌈x⌉ ≤ 0 := by
      rw [Int.ceil_le]
      push_cast
      linarith [not_le.mp hx]
    simp only [pyTrunc, if_neg hx]
    omega

lemma le_pyTrunc_of_le (x : ℚ) (n : ℤ) (hn : n ≤ 0) (h : (n : ℚ) - 1/2 ≤ x) :
    n ≤ pyTrunc x := by
  by_cases hx : 0 ≤ x
  · have hfl : (0 : ℤ) ≤ ⌊x⌋ := by
      rw [Int.le_floor]
      exact_mod_cast hx
    simp only [pyTrunc, if_pos hx]
    omega
  · have hcl : n ≤ ⌈x⌉ := by
      rw [Int.le_ceil_iff]
      linarith
    simp only [pyTrunc, if_neg hx]
    omega

/-- `PERT.sample` (`hpath/distributions.py`, lines 112-116):
`low + betavariate(α, β) * range` with `range = high - low`; the Beta draw is
abstracted as `u ∈ [0, 1]`.  `IntPERT` constructs its inner `PERT` without a
time unit, so `time_unit_factor = 1`. -/
def pert_sample (low high u : ℚ) : ℚ := low + u * (high - low)

/-- `IntPERT` (`hpath/distributions.py`, lines 126-144): the inner
distribution is `PERT(low - mode - 0.5, 0, high - mode + 0.5)` and
`__call__` returns `int(self.pert.sample()) + self.mode`. -/
def intPERT_sample (low mode high : ℤ) (u : ℚ) : ℤ :=
  pyTrunc (pert_sample ((low : ℚ) - mode - 1/2) ((high : ℚ) - mode + 1/2) u)
    + mode

/-- Claim C7: for integer `low ≤ mode ≤ high`, every `IntPERT` sample equals
`int(p) + mode` where `p` is a sample of
`PERT(low - mode - 0.5, 0, high - mode + 0.5)` truncated toward zero, and
every sample lies in `[low, high]`.  The Beta draw of the inner PERT is
abstracted as `u ∈ [0, 1]`. -/
theorem C7_intPERT_sample_range (low mode high : ℤ) (u : ℚ)
    (hlm : low ≤ mode) (hmh : mode ≤ high) (hu0 : 0 ≤ u) (hu1 : u ≤ 1) :
    intPERT_sample low mode high u
      = pyTrunc (pert_sample ((low : ℚ) - mode - 1/2)
          ((high : ℚ) - mode + 1/2) u) + mode ∧
    low ≤ intPERT_sample low mode high u ∧
    intPERT_sample low mode high u ≤ high := by
  have hlmq : (low : ℚ) ≤ (mode : ℚ) := by exact_mod_cast hlm
  have hmhq : (mode : ℚ) ≤ (high : ℚ) := by exact_mod_cast hmh
  set a : ℚ := (low : ℚ) - mode - 1/2 with ha
  set b : ℚ := (high : ℚ) - mode + 1/2 with hb
  have hba : (0 : ℚ) ≤ b - a := by rw [ha, hb]; linarith
  have hpa : a ≤ pert_sample a b u := by
    have h1 : (0 : ℚ) ≤ u * (b - a) := mul_nonneg hu0 hba
    unfold pert_sample
    linarith
  have hpb : pert_sample a b u ≤ b := by
    have h1 : (0 : ℚ) ≤ (1 - u) * (b - a) :=
      mul_nonneg (by linarith) hba
    unfold pert_sample
    nlinarith
  have hlow : low - mode ≤ pyTrunc (pert_sample a b u) := by
    apply le_pyTrunc_of_le _ _ (by omega)
    push_cast
    rw [ha] at hpa
    linarith
  have hhigh : pyTrunc (pert_sample a b u) ≤ high - mode := by
    apply pyTrunc_le_of_le _ _ (by omega)
    push_cast
    rw [hb] at hpb
    linarith
  refine ⟨rfl, ?_, ?_⟩ <;>
    · unfold intPERT_sample
      rw [← ha, ← hb]
      omega

/-- Witness for C7 at `low = 1, mode = 2, high = 4, u = 1/3`. -/
theorem C7_intPERT_sample_range_witness :
    (1 : ℤ) ≤ 2 ∧ (2 : ℤ) ≤ 4 ∧ (0 : ℚ) ≤ 1/3 ∧ (1/3 : ℚ) ≤ 1 ∧
    (intPERT_sample 1 2 4 (1/3)
      = pyTrunc (pert_sample ((1 : ℚ) - 2 - 1/2) ((4 : ℚ) - 2 + 1/2) (1/3)) + 2 ∧
     1 ≤ intPERT_sample 1 2 4 (1/3) ∧ intPERT_sample 1 2 4 (1/3) ≤ 4) :=
  ⟨by norm_num, by norm_num, by norm_num, by norm_num,
   by
     have h := C7_intPERT_sample_range 1 2 4 (1/3)
       (by norm_num) (by norm_num) (by norm_num) (by norm_num)
     exact_mod_cast h⟩

/-- A resource schedule (`hpath/config.py`, `class ResourceSchedule`):
7 `day_flags` and 48 half-hourly integer `allocation` entries. -/
structure HResourceSchedule where
  day_flags : List ℕ
  allocation : List ℕ
deriving DecidableEq, Repr

/-- Observable actions of `ResourceScheduler.process`
(`hpath/process/__core.py`, lines 115-126): `set_capacity` calls on the
resource and `hold` calls (durations in hours). -/
inductive SchedAction where
  | set_capacity (c : ℕ)
  | hold (d : ℚ)
deriving DecidableEq, Repr

/-- State threaded through the scheduler loop: `env.now()` (the loop itself
advances time only through its own `hold` calls) and
`self.resource.capacity()` (only the scheduler writes the capacity). -/
structure SchedState where
  now : ℚ
  capacity : ℕ
deriving DecidableEq, Repr

/-- One iteration of the inner `for allocation in self.schedule.allocation`
loop (`hpath/process/__core.py`, lines 123-126): call
`set_capacity(allocation)` if `allocation != self.resource.capacity() or
self.env.now() == 0`, then `hold(0.5)` (`RESOURCE_ALLOCATION_INTERVAL_HOURS`
in `hpath/util.py` is 0.5). -/
def scheduler_alloc_step (st : SchedState) (allocation : ℕ) :
    SchedState × List SchedAction :=
  if allocation ≠ st.capacity ∨ st.now = 0 then
    (⟨st.now + 1/2, allocation⟩,
     [SchedAction.set_capacity allocation, SchedAction.hold (1/2)])
  else
    (⟨st.now + 1/2, st.capacity⟩, [SchedAction.hold (1/2)])

/-- One day of `ResourceScheduler.process` (`hpath/process/__core.py`,
lines 118-126): if the day flag is 0, `set_capacity(0)` and
`hold(days(1))` (= 24 hours); otherwise run the allocation loop. -/
def scheduler_day (sched : HResourceSchedule) (st : SchedState)
    (day_flag : ℕ) : SchedState × List SchedAction :=
  if day_flag = 0 then
    (⟨st.now + 24, 0⟩, [SchedAction.set_capacity 0, SchedAction.hold 24])
  else
    sched.allocation.foldl
      (fun (acc : SchedState × List SchedAction) a =>
        let step := scheduler_alloc_step acc.1 a
        (step.1, acc.2 ++ step.2))
      (st, [])

/-- `ResourceScheduler.process` for a given number of days: the
`for day_flag in itertools.cycle(self.schedule.day_flags)` loop
(`hpath/process/__core.py`, line 118) runs forever; day `i` of the cycle uses
`day_flags[i % len(day_flags)]`. -/
def scheduler_run (sched : HResourceSchedule) :
    ℕ → SchedState → ℕ → SchedState × List SchedAction
  | _, st, 0 => (st, [])
  | i, st, n + 1 =>
    let flag := sched.day_flags.getD (i % sched.day_flags.length) 0
    let day := scheduler_day sched st flag
    let rest := scheduler_run sched (i + 1) day.1 n
    (rest.1, day.2 ++ rest.2)

/-- Transcription of claim C8's description of a working day: for each of the
half-hourly allocations `a` in turn, emit `set_capacity(a)` exactly when `a`
differs from the current capacity or the current simulation time is 0, then
hold 0.5 hours. -/
def scheduler_day_claim : SchedState → List ℕ → SchedState × List SchedAction
  | st, [] => (st, [])
  | st, a :: rest =>
    if a ≠ st.capacity ∨ st.now = 0 then
      let next := scheduler_day_claim ⟨st.now + 1/2, a⟩ rest
      (next.1, SchedAction.set_capacity a :: SchedAction.hold (1/2) :: next.2)
    else
      let next := scheduler_day_claim ⟨st.now + 1/2, st.capacity⟩ rest
      (next.1, SchedAction.hold (1/2) :: next.2)

lemma scheduler_day_foldl (l : List ℕ) (st : SchedState)
    (acc : List SchedAction) :
    l.foldl
      (fun (acc : SchedState × List SchedAction) a =>
        let step := scheduler_alloc_step acc.1 a
        (step.1, acc.2 ++ step.2))
      (st, acc)
      = ((scheduler_day_claim st l).1,
         acc ++ (scheduler_day_claim st l).2) := by
  induction l generalizing st acc with
  | nil => simp [scheduler_day_claim]
  | cons a rest ih =>
    by_cases h : a ≠ st.capacity ∨ st.now = 0
    · have hstep : scheduler_alloc_step st a
          = (⟨st.now + 1/2, a⟩,
             [SchedAction.set_capacity a, SchedAction.hold (1/2)]) := by
        simp [scheduler_alloc_step, h]
      simp only [List.foldl_cons, hstep, ih, scheduler_day_claim, if_pos h]
      simp
    · have hstep : scheduler_alloc_step st a
          = (⟨st.now + 1/2, st.capacity⟩, [SchedAction.hold (1/2)]) := by
        simp only [scheduler_alloc_step, if_neg h]
      simp only [List.foldl_cons, hstep, ih, scheduler_day_claim, if_neg h]
      simp

/-- Claim C8: the capacity scheduler loops forever over the weekly day-flags;
a flag-0 day sets the capacity to 0 and holds one day; otherwise each of the
half-hourly allocations `a` triggers `set_capacity(a)` exactly when `a`
differs from the current capacity or the simulation time is 0, followed by a
0.5-hour hold; and each further day of the infinite cycle continues from the
state the previous day left, with the day flags indexed cyclically. -/
theorem C8_resource_scheduler_behaviour (sched : HResourceSchedule)
    (st : SchedState) (i n flag : ℕ) :
    (scheduler_day sched st flag
      = if flag = 0 then
          (⟨st.now + 24, 0⟩, [SchedAction.set_capacity 0, SchedAction.hold 24])
        else scheduler_day_claim st sched.allocation) ∧
    (scheduler_run sched i st (n + 1)
      = ((scheduler_run sched (i + 1)
            (scheduler_day sched st
              (sched.day_flags.getD (i % sched.day_flags.length) 0)).1 n).1,
         (scheduler_day sched st
            (sched.day_flags.getD (i % sched.day_flags.length) 0)).2
           ++ (scheduler_run sched (i + 1)
                (scheduler_day sched st
                  (sched.day_flags.getD (i % sched.day_flags.length) 0)).1
                n).2)) := by
  constructor
  · by_cases h : flag = 0
    · simp [scheduler_day, h]
    · simp only [scheduler_day, if_neg h, scheduler_day_foldl, List.nil_append]
  · rfl

/-- Monitor data of one resource as used by `hpath/kpis.py`:
`claimedTx` is `res.claimed_quantity.tx()` and `requestersTx` is
`res.requesters().length.tx()`, each a time-ordered list of
`(timestamp, level)` pairs of the level monitor. -/
structure ResourceData where
  claimedTx : List (ℚ × ℚ)
  requestersTx : List (ℚ × ℚ)
deriving DecidableEq, Repr

/-- Integral over `[a, b]` of the step function described by a monitor `tx`
list: an entry's value holds from its timestamp to the next entry's
timestamp, and the last value holds indefinitely.  This embeds the shared
pandas pipeline of `wip_hourly`/`utilisation_hourly`/`q_length_hourly`
(`resample('H').mean()` patched by `resample('H').ffill()` for hour
intervals without samples): the mean over a one-hour interval is this
integral over that interval. -/
def stepIntegral : List (ℚ × ℚ) → ℚ → ℚ → ℚ
  | [], _, _ => 0
  | (t1, v1) :: rest, a, b =>
    let t2 := match rest with | [] => b | (s, _) :: _ => s
    v1 * max 0 (min b t2 - max a t1) + stepIntegral rest a b

/-- The hourly mean series of a monitor `tx` list over `nHours` hour
intervals. -/
def hourly_means (tx : List (ℚ × ℚ)) (nHours : ℕ) : List ℚ :=
  (List.range nHours).map fun h => stepIntegral tx (h : ℚ) ((h : ℚ) + 1)

/-- `utilisation_hourly` (`hpath/kpis.py`, lines 138-151): the hourly mean
series of the resource's `claimed_quantity` monitor. -/
def utilisation_hourly (nHours : ℕ) (res : ResourceData) : List ℚ :=
  hourly_means res.claimedTx nHours

/-- `q_length_hourly` (`hpath/kpis.py`, lines 162-176): the hourly mean
series of the resource's `requesters().length` monitor. -/
def q_length_hourly (nHours : ℕ) (res : ResourceData) : List ℚ :=
  hourly_means res.requestersTx nHours

/-- `utilisation_hourlies` (`hpath/kpis.py`, lines 154-159):
`utilisation_hourly` of every resource of the model. -/
def utilisation_hourlies (nHours : ℕ) (resources : List ResourceData) :
    List (List ℚ) :=
  resources.map (utilisation_hourly nHours)

/-- `q_length_hourlies` (`hpath/kpis.py`, lines 179-185): the body maps
`utilisation_hourly` over the resources — not `q_length_hourly`. -/
def q_length_hourlies (nHours : ℕ) (resources : List ResourceData) :
    List (List ℚ) :=
  resources.map (utilisation_hourly nHours)

/-- The `progress` TypedDict of `hpath/kpis.py` (completion proportions for
7, 10, 12 and 21 days). -/
structure HProgress where
  p7 : ℚ
  p10 : ℚ
  p12 : ℚ
  p21 : ℚ
deriving DecidableEq, Repr

/-- The `lab_progress` TypedDict of `hpath/kpis.py` (3 days). -/
structure HLabProgress where
  p3 : ℚ
deriving DecidableEq, Repr

/-- The inputs `Report.from_model` reads from a terminated model: the scalar
KPIs (`overall_tat(mdl)`, `overall_lab_tat(mdl)`, `tat_dist(mdl, ...)`,
computed by pandas aggregation over the completed specimens and abstracted
here) and the resource monitor series for the hourly utilisation field. -/
structure ModelData where
  overall_tat : ℚ
  lab_tat : ℚ
  progress : HProgress
  lab_progress : HLabProgress
  resources : List ResourceData
  nHours : ℕ
deriving DecidableEq, Repr

/-- The `Report` dataclass (`hpath/kpis.py`, lines 200-262), restricted to
the fields the claims are about; the ChartData shaping of `tat_by_stage`,
`wip_by_stage` and `resource_allocation` is elided.  The min/max fields
default to `None` as in the dataclass. -/
structure HReport where
  overall_tat : ℚ
  lab_tat : ℚ
  progress : HProgress
  lab_progress : HLabProgress
  hourly_utilization_by_resource : List (List ℚ)
  overall_tat_min : Option ℚ
  overall_tat_max : Option ℚ
  lab_tat_min : Option ℚ
  lab_tat_max : Option ℚ
  progress_min : Option HProgress
  progress_max : Option HProgress
  lab_progress_min : Option HLabProgress
  lab_progress_max : Option HLabProgress
deriving DecidableEq, Repr

/-- `Report.fake_min_max` (`hpath/kpis.py`, lines 224-239): copies the
report and sets each min field to 0.9 × the point value and each max field
to 1.1 × it, the progress/lab-progress maxima clamped by `min(1, ...)`.
The floats 0.9 and 1.1 are the rationals 9/10 and 11/10. -/
def HReport.fake_min_max (r : HReport) : HReport :=
  { r with
    overall_tat_min := some (9/10 * r.overall_tat)
    overall_tat_max := some (11/10 * r.overall_tat)
    lab_tat_min := some (9/10 * r.lab_tat)
    lab_tat_max := some (11/10 * r.lab_tat)
    progress_min := some ⟨9/10 * r.progress.p7, 9/10 * r.progress.p10,
                          9/10 * r.progress.p12, 9/10 * r.progress.p21⟩
    progress_max := some ⟨min 1 (11/10 * r.progress.p7),
                          min 1 (11/10 * r.progress.p10),
                          min 1 (11/10 * r.progress.p12),
                          min 1 (11/10 * r.progress.p21)⟩
    lab_progress_min := some ⟨9/10 * r.lab_progress.p3⟩
    lab_progress_max := some ⟨min 1 (11/10 * r.lab_progress.p3)⟩ }

/-- The `Report` the `__class__(...)` constructor call inside
`Report.from_model` builds (`hpath/kpis.py`, lines 244-262) before the final
`.fake_min_max()`: the hourly utilisation field comes from
`utilisation_hourlies(mdl)` and every min/max field is left at `None`. -/
def HReport.from_model_base (md : ModelData) : HReport :=
  ⟨md.overall_tat, md.lab_tat, md.progress, md.lab_progress,
   utilisation_hourlies md.nHours md.resources,
   none, none, none, none, none, none, none, none⟩

/-- `Report.from_model` (`hpath/kpis.py`, lines 241-262): the constructed
report with `.fake_min_max()` applied (line 262). -/
def HReport.from_model (md : ModelData) : HReport :=
  (HReport.from_model_base md).fake_min_max

/-- Claim C9: `q_length_hourlies` returns the per-resource hourly means of
the claimed-quantity monitors — it is extensionally equal to
`utilisation_hourlies` — and is not the hourly queue-length series of
`q_length_hourly` (witnessed by a resource whose claimed level is constantly
0 while one requester waits from time 0); and the hourly field of the
Report is the utilisation series (no Report field uses `q_length_hourly`). -/
theorem C9_q_length_hourlies_equals_utilisation_hourlies :
    (∀ nHours resources,
      q_length_hourlies nHours resources
        = utilisation_hourlies nHours resources) ∧
    q_length_hourly 1 ⟨[(0, 0)], [(0, 1)]⟩
      ≠ utilisation_hourly 1 ⟨[(0, 0)], [(0, 1)]⟩ ∧
    ∀ md, (HReport.from_model md).hourly_utilization_by_resource
        = utilisation_hourlies md.nHours md.resources := by
  refine ⟨fun nHours resources => rfl, ?_, fun md => rfl⟩
  simp [q_length_hourly, utilisation_hourly, hourly_means, stepIntegral,
    List.range_succ]

/-- Claim C10: `Report.from_model` synthesises its min/max fields via
`fake_min_max` rather than measuring them from replications:
`overall_tat_min = 0.9 × overall_tat`, `overall_tat_max = 1.1 ×
overall_tat`, likewise for `lab_tat`, and each progress/lab-progress bound
is 0.9 × or 1.1 × the point value with the maxima clamped to 1. -/
theorem C10_report_min_max_faked (md : ModelData) :
    HReport.from_model md = (HReport.from_model_base md).fake_min_max ∧
    (HReport.from_model md).overall_tat_min = some (9/10 * md.overall_tat) ∧
    (HReport.from_model md).overall_tat_max = some (11/10 * md.overall_tat) ∧
    (HReport.from_model md).lab_tat_min = some (9/10 * md.lab_tat) ∧
    (HReport.from_model md).lab_tat_max = some (11/10 * md.lab_tat) ∧
    (HReport.from_model md).progress_min
      = some ⟨9/10 * md.progress.p7, 9/10 * md.progress.p10,
              9/10 * md.progress.p12, 9/10 * md.progress.p21⟩ ∧
    (HReport.from_model md).progress_max
      = some ⟨min 1 (11/10 * md.progress.p7),
              min 1 (11/10 * md.progress.p10),
              min 1 (11/10 * md.progress.p12),
              min 1 (11/10 * md.progress.p21)⟩ ∧
    (HReport.from_model md).lab_progress_min
      = some ⟨9/10 * md.lab_progress.p3⟩ ∧
    (HReport.from_model md).lab_progress_max
      = some ⟨min 1 (11/10 * md.lab_progress.p3)⟩ :=
  ⟨rfl, rfl, rfl, rfl, rfl, rfl, rfl, rfl, rfl⟩
